import Mathlib

/-!
Verification of the tenant-resolution core of the auth-system backend.

The JavaScript source is shallowly embedded: every embedded `def` mirrors one
function of the source, request/session mutation becomes explicit record
update, async DB access becomes access to an explicit registry value, and
thrown exceptions become `Except` results.  JS truthiness is modelled
explicitly (`jsTruthyS`, `JsVal`).  External libraries are modelled at their
interface: bcrypt as an abstract hash function parameter, jsonwebtoken as an
abstract MAC/decode pair (`JwtLib`).
-/

namespace AuthSystem

/-- JS truthiness of a string: only the empty string is falsy. -/
def jsTruthyS (s : String) : Bool := s != ""

/-- JS truthiness of a possibly-undefined string (undefined and null map to none). -/
def jsTruthyOS : Option String → Bool
  | none => false
  | some s => jsTruthyS s

/-- JS s1 short-circuit or with a string default: v or d in JS. -/
def jsOrS (v : Option String) (d : String) : String :=
  match v with
  | some s => if s != "" then s else d
  | none => d

/-- Model of a JS value at the points where the source tests truthiness and
Array.isArray on request-body fields (only the shapes the claims need). -/
inductive JsVal where
  | jsUndefined : JsVal
  | jsNull : JsVal
  | jsStr (s : String) : JsVal
  | jsNum (n : Int) : JsVal
  | jsBool (b : Bool) : JsVal
  | jsArr (xs : List String) : JsVal
  deriving DecidableEq

/-- JS truthiness of a JsVal. -/
def jsTruthy : JsVal → Bool
  | .jsUndefined => false
  | .jsNull => false
  | .jsStr s => s != ""
  | .jsNum n => n != 0
  | .jsBool b => b
  | .jsArr _ => true

/-- Array.isArray. -/
def jsIsArray : JsVal → Bool
  | .jsArr _ => true
  | _ => false

/-- Extract the list of an array JsVal (callers guard with jsIsArray first). -/
def jsArrGet : JsVal → List String
  | .jsArr xs => xs
  | _ => []

/-- JS String.prototype.startsWith, on the character lists. -/
def jsStartsWith (s pre : String) : Bool :=
  List.isPrefixOf pre.data s.data

/-- JS String.prototype.replace of every dash with the empty string. -/
def stripDashes (s : String) : String :=
  ⟨s.data.filter (fun c => c != '-')⟩

/-- JS String.prototype.substring(n), on the character list. -/
def jsSubstringFrom (s : String) (n : Nat) : String :=
  ⟨s.data.drop n⟩

/-- Modelled from the spec: the error taxonomy of middleware/errorHandler.js,
which is not among the provided sources; only its class names and throw sites
appear in the source files.  validation is ValidationError, auth is
AuthError (the AuthenticationError of the spec), notFound is NotFoundError.
typeError models a JavaScript TypeError raised by calling a missing binding,
and jsError a plain Error. -/
inductive Err where
  | validation (msg : String) : Err
  | auth (msg : String) : Err
  | notFound (msg : String) : Err
  | typeError (msg : String) : Err
  | jsError (msg : String) : Err
  deriving DecidableEq

/-- Decidable equality for Except results so concrete outcomes can be
settled by decide. -/
instance instDecEqExcept {ε α : Type} [DecidableEq ε] [DecidableEq α] :
    DecidableEq (Except ε α) := fun x y =>
  match x, y with
  | .ok a, .ok b =>
    if h : a = b then .isTrue (h ▸ rfl)
    else .isFalse (fun hh => h (Except.ok.inj hh))
  | .error a, .error b =>
    if h : a = b then .isTrue (h ▸ rfl)
    else .isFalse (fun hh => h (Except.error.inj hh))
  | .ok _, .error _ => .isFalse (fun hh => Except.noConfusion hh)
  | .error _, .ok _ => .isFalse (fun hh => Except.noConfusion hh)

/-- True exactly on an AuthError result. -/
def isAuthErr {α : Type} : Except Err α → Bool
  | .error (.auth _) => true
  | _ => false

/-- True on an ok result. -/
def isOkE {ε α : Type} : Except ε α → Bool
  | .ok _ => true
  | _ => false

/-- A row of the client_servers registry table (auth_internal and public
copies are read through a UNION; the model keeps one row list in listing
order).  Timestamps are not modelled. -/
structure ClientServer where
  client_id : String
  client_secret_hash : String
  app_name : String
  assigned_schema_name : String
  allowed_return_urls : List String
  user_id : Option String
  client_mode : String
  deriving DecidableEq

/-- The client information object returned by verifyApiToken. -/
structure ClientInfo where
  client_id : String
  schema : String
  app_name : String
  allowed_return_urls : List String
  deriving DecidableEq

/-- The poolMetadata bag written by setPoolContext; absent fields are none. -/
structure PoolMetadata where
  client_id : Option String := none
  app_name : Option String := none
  client_mode : Option String := none
  return_url : Option String := none
  allowed_return_urls : Option (List String) := none
  token_type : Option String := none
  user_role : Option String := none
  user_id : Option String := none
  system_admin : Option Bool := none
  owned_clients : Option Nat := none
  fallback : Option Bool := none
  reason : Option String := none
  deriving DecidableEq

/-- The express session bag.  It is persisted across requests of one browser
agent (cookie-bound session store); the resolver writes poolContext, schema
and poolMetadata into it. -/
structure Session where
  userId : Option String := none
  role : Option String := none
  poolContext : Option String := none
  schema : Option String := none
  poolMetadata : Option PoolMetadata := none
  deriving DecidableEq

/-- The request as the middleware sees it: the Authorization header, the
returnUrl body field (none models absent, null and undefined), the session,
and the req.schema / req.clientContext fields some middleware writes. -/
structure Req where
  authorization : Option String := none
  returnUrl : Option String := none
  session : Session := {}
  schema : Option String := none
  clientContext : Option ClientInfo := none
  deriving DecidableEq

/-- Process environment and durable registry state: SEED_SCHEMA, JWT_SECRET,
and the client_servers rows (auth_internal UNION public, in listing order). -/
structure Env where
  seedSchema : Option String := none
  jwtSecret : Option String := none
  clientServers : List ClientServer := []
  deriving DecidableEq

/-- process.env.SEED_SCHEMA or the client_template fallback. -/
def defaultSchemaName (env : Env) : String :=
  jsOrS env.seedSchema "client_template"

/-- process.env.JWT_SECRET or the hardcoded fallback of the source. -/
def jwtSecretKey (env : Env) : String :=
  jsOrS env.jwtSecret "your-jwt-secret"

/-- The payload jwt.sign embeds in clientServerService.js. -/
structure JwtPayload where
  client_id : String
  schema : String
  type : String
  deriving DecidableEq

/-- A decoded JWT: payload, expiry (seconds), signature value. -/
structure Jwt where
  payload : JwtPayload
  exp : Nat
  sig : Nat
  deriving DecidableEq

/-- Interface model of the jsonwebtoken library: an abstract MAC keyed by the
secret, and an abstract parser of the compact token string. -/
structure JwtLib where
  mac : String → JwtPayload → Nat → Nat
  decode : String → Option Jwt

/-- Outcome classes of jwt.verify. -/
inductive JwtErr where
  | jsonWebTokenErr : JwtErr
  | tokenExpiredErr : JwtErr
  deriving DecidableEq

/-- jwt.verify(token, key) at time now: parse, check signature, check expiry
(a token is expired once now has reached exp). -/
def jwtVerify (L : JwtLib) (key : String) (now : Nat) (s : String) :
    Except JwtErr JwtPayload :=
  match L.decode s with
  | none => .error .jsonWebTokenErr
  | some t =>
    if t.sig != L.mac key t.payload t.exp then .error .jsonWebTokenErr
    else if t.exp ≤ now then .error .tokenExpiredErr
    else .ok t.payload

/-- jwt.sign(payload, key, expiresIn lifetime) at time now. -/
def jwtSign (L : JwtLib) (key : String) (p : JwtPayload) (now lifetime : Nat) : Jwt :=
  { payload := p, exp := now + lifetime, sig := L.mac key p (now + lifetime) }

namespace AdminRepository

/-- The call repo.getClientServer(pool, client_id) made by
clientServerService.js, where repo is the namespace import of
adminRepository.js.  adminRepository.js exports createClientServer,
getClientServerByClientId, updateClientServer, deleteClientServer,
getUserClientServers, getUserClientServer, updateUserClientServer,
deleteUserClientServer, getAllClientServers and adminService, but no
getClientServer binding; the property access yields undefined and the call
raises TypeError. -/
def getClientServer (_env : Env) (_client_id : String) :
    Except Err (Option ClientServer) :=
  .error (.typeError "repo.getClientServer is not a function")

/-- Input record of adminRepository.createClientServer (the credential
fields of the caller-supplied object are ignored by the source, which
destructures only the fields below and regenerates credentials). -/
structure CreateData where
  app_name : String
  assigned_schema_name : String
  allowed_return_urls : List String
  user_id : Option String
  client_mode : Option String
  deriving DecidableEq

/-- adminRepository.createClientServer(req, clientServerData): regenerates
client_id (u3) and client_secret (u4), hashes the secret with bcrypt
(bhash), validates the remaining fields with plain Error, inserts the row,
and returns the row together with the unhashed regenerated secret. -/
def createClientServer (env : Env) (data : CreateData) (u3 u4 : String)
    (bhash : String → String) : Except Err (ClientServer × String × Env) :=
  let client_id := "client_" ++ stripDashes u3
  let client_secret := u4
  let client_secret_hash := bhash client_secret
  if ¬ jsTruthyS data.app_name ∨ ¬ jsTruthyS data.assigned_schema_name then
    .error (.jsError "app_name, assigned_schema_name, and allowed_return_urls are required")
  else
    let row : ClientServer :=
      { client_id := client_id
        client_secret_hash := client_secret_hash
        app_name := data.app_name
        assigned_schema_name := data.assigned_schema_name
        allowed_return_urls := data.allowed_return_urls
        user_id := match data.user_id with
          | some s => if s != "" then some s else none
          | none => none
        client_mode := match data.client_mode with
          | some m => m
          | none => "frontend-login-proxy" }
    .ok (row, client_secret, { env with clientServers := env.clientServers ++ [row] })

end AdminRepository

namespace ClientServerService

/-- Sanitization of the app name used for schema-name generation:
toLowerCase, then every character outside a-z and 0-9 becomes an
underscore. -/
def sanitizeAppName (s : String) : String :=
  ⟨s.data.map (fun c =>
    let c := c.toLower
    if (('a' ≤ c ∧ c ≤ 'z') ∨ ('0' ≤ c ∧ c ≤ '9')) then c else '_')⟩

/-- Request body of the public registration endpoint. -/
structure RegisterBody where
  app_name : Option String := none
  allowed_return_urls : JsVal := .jsUndefined
  deriving DecidableEq

/-- Data part of the registration response. -/
structure RegisterData where
  client_id : String
  client_secret : String
  app_name : String
  assigned_schema_name : String
  allowed_return_urls : List String
  deriving DecidableEq

/-- registerClientServer(req) (public API): validates app_name and
allowed_return_urls (array) with ValidationError, generates the service
side credentials client_id from uuid u1 and client_secret u2 (hash of u2
computed and passed on, but adminRepository regenerates its own u3 and u4
and stores those), generates the schema name from the sanitized app name
and Date.now(), stores the row through repo.createClientServer, and
returns the service side credentials.  Pool provisioning side effects are
modelled separately (Pools namespace). -/
def registerClientServer (env : Env) (body : RegisterBody)
    (u1 u2 u3 u4 : String) (now : Nat) (bhash : String → String) :
    Except Err (RegisterData × Env) :=
  if ¬ jsTruthyOS body.app_name ∨ ¬ jsTruthy body.allowed_return_urls ∨
      ¬ jsIsArray body.allowed_return_urls then
    .error (.validation "app_name and allowed_return_urls (array) are required")
  else
    let app_name := body.app_name.getD ""
    let urls := jsArrGet body.allowed_return_urls
    let client_id := "client_" ++ stripDashes u1
    let client_secret := u2
    let _client_secret_hash := bhash client_secret
    let assigned_schema_name :=
      "client_" ++ sanitizeAppName app_name ++ "_" ++ toString now
    match AdminRepository.createClientServer env
        { app_name := app_name
          assigned_schema_name := assigned_schema_name
          allowed_return_urls := urls
          user_id := none
          client_mode := some "api-auth-server" } u3 u4 bhash with
    | .error e => .error e
    | .ok (_row, _secret2, env2) =>
      .ok ({ client_id := client_id
             client_secret := client_secret
             app_name := app_name
             assigned_schema_name := assigned_schema_name
             allowed_return_urls := urls }, env2)

/-- Request data of the logged-in registration endpoint. -/
structure RegisterBodyForUser where
  app_name : Option String := none
  allowed_return_urls : JsVal := .jsUndefined
  client_mode : Option String := none
  deriving DecidableEq

/-- registerClientServerForUser(clientData, req): as registerClientServer,
with a session user required, a client_mode whitelist, and the session user
stored as owner. -/
def registerClientServerForUser (env : Env) (body : RegisterBodyForUser)
    (req : Req) (u1 u2 u3 u4 : String) (now : Nat)
    (bhash : String → String) : Except Err (RegisterData × Env) :=
  let client_mode := match body.client_mode with
    | some m => m
    | none => "frontend-login-proxy"
  if ¬ jsTruthyOS req.session.userId then
    .error (.validation "User ID is required")
  else if ¬ jsTruthyOS body.app_name ∨ ¬ jsTruthy body.allowed_return_urls ∨
      ¬ jsIsArray body.allowed_return_urls then
    .error (.validation "app_name and allowed_return_urls (array) are required")
  else if ¬ (client_mode = "frontend-login-proxy" ∨ client_mode = "api-auth-server") then
    .error (.validation "client_mode must be frontend-login-proxy or api-auth-server")
  else
    let app_name := body.app_name.getD ""
    let urls := jsArrGet body.allowed_return_urls
    let client_id := "client_" ++ stripDashes u1
    let client_secret := u2
    let _client_secret_hash := bhash client_secret
    let assigned_schema_name :=
      "client_" ++ sanitizeAppName app_name ++ "_" ++ toString now
    match AdminRepository.createClientServer env
        { app_name := app_name
          assigned_schema_name := assigned_schema_name
          allowed_return_urls := urls
          user_id := req.session.userId
          client_mode := some client_mode } u3 u4 bhash with
    | .error e => .error e
    | .ok (_row, _secret2, env2) =>
      .ok ({ client_id := client_id
             client_secret := client_secret
             app_name := app_name
             assigned_schema_name := assigned_schema_name
             allowed_return_urls := urls }, env2)

/-- Row shape of the owner-scoped queries of clientServerService.js, which
select client_id, app_name, assigned_schema_name, allowed_return_urls,
client_mode, created_at, updated_at and never the client_secret_hash
column (timestamps are not modelled). -/
structure ClientRow where
  client_id : String
  app_name : String
  assigned_schema_name : String
  allowed_return_urls : List String
  client_mode : String
  deriving DecidableEq

/-- Projection of the owner-scoped SELECT column list. -/
def toClientRow (c : ClientServer) : ClientRow :=
  { client_id := c.client_id
    app_name := c.app_name
    assigned_schema_name := c.assigned_schema_name
    allowed_return_urls := c.allowed_return_urls
    client_mode := c.client_mode }

/-- getUserClientServers(req): rows owned by the session user, without the
secret-hash column (ORDER BY created_at DESC not modelled; only row
membership matters to the claims). -/
def getUserClientServers (env : Env) (userId : Option String) :
    Except Err (List ClientRow) :=
  if ¬ jsTruthyOS userId then .error (.validation "User ID is required")
  else .ok (((env.clientServers.filter (fun c => c.user_id == userId)).map toClientRow))

/-- getUserClientServer(req, clientId): the single owner-scoped row. -/
def getUserClientServer (env : Env) (userId clientId : Option String) :
    Except Err ClientRow :=
  if ¬ jsTruthyOS userId ∨ ¬ jsTruthyOS clientId then
    .error (.validation "User ID and Client ID are required")
  else
    match (env.clientServers.filter
        (fun c => c.user_id == userId && some c.client_id == clientId)).head? with
    | none => .error (.notFound "Client server not found or access denied")
    | some c => .ok (toClientRow c)

/-- verifyApiToken(token): requires a truthy token, verifies with jwt.verify
(signature and expiry failures are mapped to AuthError by the catch block),
rejects a payload whose type is not api_token with AuthError, then looks the
client up through repo.getClientServer — which, as wired, raises TypeError
(adminRepository exports no getClientServer), and the catch block rethrows
a TypeError unchanged. -/
def verifyApiToken (L : JwtLib) (env : Env) (now : Nat) (token : String) :
    Except Err ClientInfo :=
  if ¬ jsTruthyS token then .error (.auth "API token is required")
  else
    match jwtVerify L (jwtSecretKey env) now token with
    | .error _ => .error (.auth "Invalid or expired token")
    | .ok decoded =>
      if decoded.type != "api_token" then .error (.auth "Invalid token type")
      else
        match AdminRepository.getClientServer env decoded.client_id with
        | .error e => .error e
        | .ok none => .error (.auth "Client server not found")
        | .ok (some cs) =>
          .ok { client_id := decoded.client_id
                schema := decoded.schema
                app_name := cs.app_name
                allowed_return_urls := cs.allowed_return_urls }

/-- Body of the token-issuing endpoint. -/
structure AuthBody where
  client_id : Option String := none
  client_secret : Option String := none
  deriving DecidableEq

/-- Data part of the authentication response. -/
structure AuthData where
  token : Jwt
  expires_in : Nat
  schema : String
  deriving DecidableEq

/-- authenticateClientServer(req): validates the body, looks the client up
through repo.getClientServer — which, as wired, raises TypeError before any
secret comparison or signing — then (in the unreachable continuation kept
from the source) compares the secret with bcrypt and signs a 24h api_token. -/
def authenticateClientServer (L : JwtLib) (env : Env) (now : Nat)
    (body : AuthBody) (bcompare : String → String → Bool) :
    Except Err AuthData :=
  if ¬ jsTruthyOS body.client_id ∨ ¬ jsTruthyOS body.client_secret then
    .error (.validation "client_id and client_secret are required")
  else
    match AdminRepository.getClientServer env (body.client_id.getD "") with
    | .error e => .error e
    | .ok none => .error (.auth "Invalid client credentials")
    | .ok (some cs) =>
      if ¬ bcompare (body.client_secret.getD "") cs.client_secret_hash then
        .error (.auth "Invalid client credentials")
      else
        let payload : JwtPayload :=
          { client_id := body.client_id.getD ""
            schema := cs.assigned_schema_name
            type := "api_token" }
        .ok { token := jwtSign L (jwtSecretKey env) payload now 86400
              expires_in := 86400
              schema := cs.assigned_schema_name }

/-- Client info shape returned by getClientServerInfo: the stored row with
the client_secret_hash field removed by destructuring. -/
structure ClientPublicInfo where
  client_id : String
  app_name : String
  assigned_schema_name : String
  allowed_return_urls : List String
  user_id : Option String
  client_mode : String
  deriving DecidableEq

/-- getClientServerInfo(client_id): validates the id, looks the client up
through repo.getClientServer — which, as wired, raises TypeError — then (in
the unreachable continuation kept from the source) strips the secret hash. -/
def getClientServerInfo (env : Env) (client_id : Option String) :
    Except Err ClientPublicInfo :=
  if ¬ jsTruthyOS client_id then .error (.validation "client_id is required")
  else
    match AdminRepository.getClientServer env (client_id.getD "") with
    | .error e => .error e
    | .ok none => .error (.notFound "Client server not found")
    | .ok (some cs) =>
      .ok { client_id := cs.client_id
            app_name := cs.app_name
            assigned_schema_name := cs.assigned_schema_name
            allowed_return_urls := cs.allowed_return_urls
            user_id := cs.user_id
            client_mode := cs.client_mode }

end ClientServerService

namespace SchemaDetection

/-- setPoolContext(req, context, schema, metadata): writes the pool context,
schema and metadata into the session bag of the request. -/
def setPoolContext (req : Req) (context schema : String)
    (metadata : PoolMetadata) : Req :=
  { req with session :=
    { req.session with
      poolContext := some context
      schema := some schema
      poolMetadata := some metadata } }

/-- detectSchemaFromApiToken: on a truthy Authorization header with the
Bearer scheme, verify the token; on success set the API_CLIENT context with
the schema embedded in the token and remember the client info; on any
verification error fall through leaving the request untouched. -/
def detectSchemaFromApiToken (L : JwtLib) (env : Env) (now : Nat)
    (req : Req) : Req :=
  match req.authorization with
  | none => req
  | some h =>
    if jsTruthyS h ∧ jsStartsWith h "Bearer " then
      let token := jsSubstringFrom h 7
      match ClientServerService.verifyApiToken L env now token with
      | .ok info =>
        let r := setPoolContext req "api_client" info.schema
          { client_id := some info.client_id
            app_name := some info.app_name
            allowed_return_urls := some info.allowed_return_urls
            token_type := some "api_token"
            user_role := some "api_client" }
        { r with clientContext := some info }
      | .error _ => req
    else req

/-- The matching client of detectSchemaFromReturnUrl: the first row of the
registry listing (auth_internal UNION ALL public) one of whose allowed
return urls is a truthy prefix of the truthy returnUrl. -/
def matchingClient (env : Env) (returnUrl : String) : Option ClientServer :=
  env.clientServers.find? (fun c =>
    c.allowed_return_urls.any (fun a =>
      jsTruthyS a && jsTruthyS returnUrl && jsStartsWith returnUrl a))

/-- detectSchemaFromReturnUrl: when the body carries a returnUrl (null and
undefined skip the lookup), scan the registry for a matching client and set
the CLIENT_TENANT context with the matched assigned schema; no match falls
through silently. -/
def detectSchemaFromReturnUrl (env : Env) (req : Req) : Req :=
  match req.returnUrl with
  | none => req
  | some returnUrl =>
    match matchingClient env returnUrl with
    | some c =>
      setPoolContext req "client_tenant" c.assigned_schema_name
        { client_id := some c.client_id
          app_name := some c.app_name
          client_mode := some c.client_mode
          return_url := some returnUrl
          allowed_return_urls := some c.allowed_return_urls
          user_role := some "user" }
    | none => req

/-- Number of client_servers rows owned by the given user (the COUNT query
of detectUserRole). -/
def ownedClientCount (env : Env) (userId : Option String) : Nat :=
  (env.clientServers.filter (fun c => c.user_id == userId)).length

/-- detectUserRole: only when the session has a user and no pool context yet;
a session role of admin gets the AUTH_INTERNAL context, a user owning at
least one client server gets the AUTH_INTERNAL owner context, anyone else
the DEFAULT context on the default schema. -/
def detectUserRole (env : Env) (req : Req) : Req :=
  if jsTruthyOS req.session.userId ∧ ¬ jsTruthyOS req.session.poolContext then
    if req.session.role = some "admin" then
      setPoolContext req "auth_internal" "auth_internal"
        { user_id := req.session.userId
          user_role := some "admin"
          system_admin := some true }
    else
      let cnt := ownedClientCount env req.session.userId
      if cnt > 0 then
        setPoolContext req "auth_internal" "auth_internal"
          { user_id := req.session.userId
            user_role := some "owner"
            owned_clients := some cnt }
      else
        setPoolContext req "default" (defaultSchemaName env)
          { user_id := req.session.userId
            user_role := some "user"
            reason := some "regular_user" }
  else req

/-- setDefaultSchema: when no pool context was set, set the DEFAULT context
on the default schema; otherwise copy the session schema onto req.schema
when the latter is unset. -/
def setDefaultSchema (env : Env) (req : Req) : Req :=
  if ¬ jsTruthyOS req.session.poolContext then
    setPoolContext req "default" (defaultSchemaName env)
      { fallback := some true
        reason := some "no_specific_context"
        user_role := some "user" }
  else if jsTruthyOS req.session.schema ∧ ¬ jsTruthyOS req.schema then
    { req with schema := req.session.schema }
  else req

/-- detectSchema: the combined middleware; API token first, then returnUrl
when no context was set, then user role when still none, then the default.
Each detection step catches its own errors and falls through, so the chain
always terminates with a context. -/
def detectSchema (L : JwtLib) (env : Env) (now : Nat) (req : Req) : Req :=
  let r1 := detectSchemaFromApiToken L env now req
  let r2 := if ¬ jsTruthyOS r1.session.poolContext then
    detectSchemaFromReturnUrl env r1 else r1
  let r3 := if ¬ jsTruthyOS r2.session.poolContext then
    detectUserRole env r2 else r2
  setDefaultSchema env r3

/-- getSchemaFromRequest: req.schema, else the session schema, else the
default schema. -/
def getSchemaFromRequest (env : Env) (req : Req) : String :=
  jsOrS req.schema (jsOrS req.session.schema (defaultSchemaName env))

/-- getUserRole: the user_role of the session pool metadata, defaulting to
user. -/
def getUserRole (req : Req) : String :=
  match req.session.poolMetadata with
  | some m => jsOrS m.user_role "user"
  | none => "user"

/-- isSystemAdmin. -/
def isSystemAdmin (req : Req) : Bool := getUserRole req == "admin"

/-- isClientOwner. -/
def isClientOwner (req : Req) : Bool := getUserRole req == "owner"

/-- isTenantUser. -/
def isTenantUser (req : Req) : Bool := getUserRole req == "user"

end SchemaDetection

namespace PoolService

/-- requireClientOwner(req) of poolService.js: throws unless isClientOwner,
in particular a system admin context does not pass. -/
def requireClientOwner (req : Req) : Except String Unit :=
  if ¬ SchemaDetection.isClientOwner req then
    .error ("Client server owner privileges required. Current role: " ++
      SchemaDetection.getUserRole req)
  else .ok ()

/-- requireSystemAdmin(req) of poolService.js. -/
def requireSystemAdmin (req : Req) : Except String Unit :=
  if ¬ SchemaDetection.isSystemAdmin req then
    .error ("System admin privileges required. Current role: " ++
      SchemaDetection.getUserRole req)
  else .ok ()

end PoolService

namespace AuthMiddleware

/-- hasRole(role) of middleware/auth.js: 401 without a truthy session user,
401 unless the session role equals the requested role or equals admin. -/
def hasRole (role : String) (req : Req) : Except (Nat × String) Unit :=
  if ¬ jsTruthyOS req.session.userId then
    .error (401, "Authentication required")
  else if req.session.role ≠ some role ∧ req.session.role ≠ some "admin" then
    .error (401, "Insufficient permissions")
  else .ok ()

end AuthMiddleware

namespace AuthService

/-- A row of the per-schema users table.  register stores the raw request
password into the password_hash column (the source comments this with: in a
real app, hash the password). -/
structure User where
  id : String
  name : String
  role : String
  email : String
  password_hash : String
  deriving DecidableEq

/-- Public user shape after removePasswordFromUser. -/
structure UserPublic where
  id : String
  name : String
  role : String
  email : String
  deriving DecidableEq

/-- removePasswordFromUser. -/
def removePasswordFromUser (u : User) : UserPublic :=
  { id := u.id, name := u.name, role := u.role, email := u.email }

/-- Login credentials of the request body. -/
structure Credentials where
  email : Option String := none
  password : Option String := none
  deriving DecidableEq

/-- A row of the sessions table (only the fields the claims need). -/
structure SessionRow where
  user_id : String
  session_id : String
  deriving DecidableEq

/-- repo.getUserByEmail: fetch all users of the schema and take the first
with the given email. -/
def getUserByEmail (users : List User) (email : String) : Option User :=
  users.find? (fun u => u.email == email)

/-- login(req) of services/auth.js, on the user rows of the resolved schema:
validation of the credentials, lookup by email, then the password check
user.password_hash !== credentials.password — a direct plaintext string
comparison against the stored column — then session update and session-row
creation. -/
def login (users : List User) (sessions : List SessionRow) (req : Req)
    (creds : Credentials) (sid : String) :
    Except Err (UserPublic × Req × List SessionRow) :=
  if ¬ jsTruthyOS creds.email ∨ ¬ jsTruthyOS creds.password then
    .error (.validation "Email and password are required")
  else
    match getUserByEmail users (creds.email.getD "") with
    | none => .error (.auth "Invalid credentials")
    | some user =>
      if user.password_hash ≠ creds.password.getD "" then
        .error (.auth "Invalid credentials")
      else
        let req2 := { req with session :=
          { req.session with userId := some user.id, role := some user.role } }
        .ok (removePasswordFromUser user, req2, sessions ++ [⟨user.id, sid⟩])

/-- Registration body. -/
structure RegisterUserBody where
  name : Option String := none
  email : Option String := none
  password : Option String := none
  role : Option String := none
  deriving DecidableEq

/-- register(req) of services/auth.js: validation, duplicate-email check,
then creation of the user row with the raw password stored unhashed in the
password_hash column. -/
def register (users : List User) (body : RegisterUserBody) (uid : String) :
    Except Err (String × List User) :=
  if ¬ jsTruthyOS body.name ∨ ¬ jsTruthyOS body.email ∨
      ¬ jsTruthyOS body.password then
    .error (.validation "Name, email, and password are required")
  else if (getUserByEmail users (body.email.getD "")).isSome then
    .error (.validation "User with this email already exists")
  else
    let role := jsOrS body.role "user"
    let newUser : User :=
      { id := uid
        name := body.name.getD ""
        role := role
        email := body.email.getD ""
        password_hash := body.password.getD "" }
    .ok (uid, users ++ [newUser])

end AuthService

namespace Pools

/-- Process-wide pool caches of the two pool modules: the auth pool variable
of pools/auth.js, the schema map of pools/clientServers.js, a counter for
fresh pool handles, and logs of provisioning (initSchema) runs. -/
structure PoolState where
  authPool : Option Nat := none
  authProvisionRuns : Nat := 0
  schemas : List (String × Nat) := []
  schemaProvisionRuns : List String := []
  nextId : Nat := 0
  deriving DecidableEq

/-- getPool of pools/auth.js: when no pool is cached, the cache variable is
assigned the new pool first, then connect and initSchema run; a provisioning
failure (provisionFails) rejects the call but leaves the pool cached.  A
cached pool is returned without provisioning. -/
def getPool (provisionFails : Bool) (st : PoolState) :
    Except Unit Nat × PoolState :=
  match st.authPool with
  | some p => (.ok p, st)
  | none =>
    let p := st.nextId
    let st1 : PoolState :=
      { st with
        authPool := some p
        nextId := st.nextId + 1
        authProvisionRuns := st.authProvisionRuns + 1 }
    if provisionFails then (.error (), st1) else (.ok p, st1)

/-- getPoolForSchema of pools/clientServers.js: a cached schema handle is
returned as is; otherwise a new pool is created, initSchema runs, and only
after provisioning succeeds is the handle written into the cache; a
provisioning failure rejects the call without caching. -/
def getPoolForSchema (provisionFails : String → Bool) (st : PoolState)
    (schemaName : String := "client_template") :
    Except Unit Nat × PoolState :=
  match st.schemas.lookup schemaName with
  | some p => (.ok p, st)
  | none =>
    let p := st.nextId
    let st1 : PoolState :=
      { st with
        nextId := st.nextId + 1
        schemaProvisionRuns := st.schemaProvisionRuns ++ [schemaName] }
    if provisionFails schemaName then (.error (), st1)
    else (.ok p, { st1 with schemas := (schemaName, p) :: st1.schemas })

end Pools

section Fixtures

/-- A concrete jsonwebtoken model for concrete evaluations: the MAC is
constantly 0 and exactly the string tokA parses, to the api token of
client cA bound to schema_a, expiring at time 100. -/
def jwtFixA : Jwt :=
  { payload := { client_id := "cA", schema := "schema_a", type := "api_token" }
    exp := 100
    sig := 0 }

/-- Concrete token library fixture. -/
def jwtLib0 : JwtLib :=
  { mac := fun _ _ _ => 0
    decode := fun s => if s = "tokA" then some jwtFixA else none }

/-- Registered client cA (api mode, schema_a). -/
def clientA : ClientServer :=
  { client_id := "cA"
    client_secret_hash := "hashA"
    app_name := "AApp"
    assigned_schema_name := "schema_a"
    allowed_return_urls := ["https://a.example/"]
    user_id := none
    client_mode := "api-auth-server" }

/-- Registered client cB (proxy mode, schema_b). -/
def clientB : ClientServer :=
  { client_id := "cB"
    client_secret_hash := "hashB"
    app_name := "BApp"
    assigned_schema_name := "schema_b"
    allowed_return_urls := ["https://b.example/"]
    user_id := none
    client_mode := "frontend-login-proxy" }

/-- Environment with the two fixture clients registered. -/
def envAB : Env := { clientServers := [clientA, clientB] }

/-- Concrete bcrypt model for concrete evaluations. -/
def bhash0 (s : String) : String := "bc$" ++ s

end Fixtures

/-- C10: hasRole(r) admits a request exactly when the session holds a truthy
userId and the session role equals r or equals admin; an unauthenticated
request is always rejected with status 401. -/
theorem c10_hasRole_admits_exactly (role : String) (req : Req) :
    ((AuthMiddleware.hasRole role req = .ok ()) ↔
      (jsTruthyOS req.session.userId = true ∧
        (req.session.role = some role ∨ req.session.role = some "admin")))
    ∧ (jsTruthyOS req.session.userId = false →
        AuthMiddleware.hasRole role req = .error (401, "Authentication required")) := by
  unfold AuthMiddleware.hasRole
  constructor
  · split_ifs with h1 h2 <;> simp_all
    tauto
  · intro h
    split_ifs with h1 h2 <;> simp_all

/-- Fixture request resolved as a client-server owner. -/
def reqOwnerCtx : Req :=
  { session :=
    { userId := some "u1"
      role := some "user"
      poolContext := some "auth_internal"
      schema := some "auth_internal"
      poolMetadata := some { user_id := some "u1", user_role := some "owner",
                             owned_clients := some 2 } } }

/-- Witness for C10 at a concrete request. -/
theorem c10_witness :
    AuthMiddleware.hasRole "user" reqOwnerCtx = .ok () :=
  (c10_hasRole_admits_exactly "user" reqOwnerCtx).1.mpr (by decide)

/-- Fixture request resolved as a system administrator (the context
detectUserRole writes for a session whose role is admin). -/
def reqAdminCtx : Req :=
  { session :=
    { userId := some "u9"
      role := some "admin"
      poolContext := some "auth_internal"
      schema := some "auth_internal"
      poolMetadata := some { user_id := some "u9", user_role := some "admin",
                             system_admin := some true } } }

/-- C5 counterexample: a resolved system-admin context is rejected by
requireClientOwner, refuting that the owner check passes for the
system_admin tier. -/
theorem c5_counterexample :
    SchemaDetection.isSystemAdmin reqAdminCtx = true ∧
    PoolService.requireClientOwner reqAdminCtx =
      .error "Client server owner privileges required. Current role: admin" := by decide

/-- C5 amended: requireClientOwner succeeds exactly when the resolved role
is owner; every other role, the admin role included, fails with the
authorization error. -/
theorem c5_requireClientOwner_iff (req : Req) :
    PoolService.requireClientOwner req = .ok () ↔
      SchemaDetection.getUserRole req = "owner" := by
  unfold PoolService.requireClientOwner SchemaDetection.isClientOwner
  split_ifs with h <;> simp_all

/-- Witness for C5 at a concrete owner-context request. -/
theorem c5_witness :
    PoolService.requireClientOwner reqOwnerCtx = .ok () :=
  (c5_requireClientOwner_iff reqOwnerCtx).mpr (by decide)

/-- First request of the C3 counterexample: a proxy login carrying a
returnUrl served by client B, with a fresh session. -/
def reqProxyFirst : Req := { returnUrl := some "https://b.example/cb" }

/-- Later request of the C3 counterexample: no bearer token, no returnUrl,
no user, but the session bag as the first request left it. -/
def reqProxyLater : Req :=
  { session := (SchemaDetection.detectSchema jwtLib0 envAB 0 reqProxyFirst).session }

/-- C3 counterexample: the context resolved for the first request survives
in the session and decides the partition of a later credential-free request
of the same browser agent (which, resolved from its own empty credentials,
would get the default partition). -/
theorem c3_counterexample :
    (SchemaDetection.detectSchema jwtLib0 envAB 0 reqProxyFirst).session.schema
      = some "schema_b" ∧
    (SchemaDetection.detectSchema jwtLib0 envAB 0 reqProxyLater).session.schema
      = some "schema_b" ∧
    (SchemaDetection.detectSchema jwtLib0 envAB 0 reqProxyLater).session.poolContext
      = some "client_tenant" ∧
    (SchemaDetection.detectSchema jwtLib0 envAB 0 { session := {} }).session.schema
      = some "client_template" := by decide

/-- C3 amended: the resolved context is written into the persistent session
bag and is reused: a request with no Authorization header whose session
already carries a pool context leaves the whole session untouched, so the
earlier resolution keeps deciding partition and tier until overridden. -/
theorem c3_session_context_persists (L : JwtLib) (env : Env) (now : Nat)
    (req : Req) (hauth : req.authorization = none)
    (hctx : jsTruthyOS req.session.poolContext = true) :
    (SchemaDetection.detectSchema L env now req).session = req.session := by
  unfold SchemaDetection.detectSchema SchemaDetection.detectSchemaFromApiToken
    SchemaDetection.setDefaultSchema
  rw [hauth]
  simp only [hctx, Bool.true_eq_false, not_true_eq_false, if_false, if_neg]
  split_ifs <;> rfl

/-- Fixture for the C3 witness: a credential-free request with a previously
resolved tenant context in its session. -/
def reqCarriedCtx : Req :=
  { session :=
    { poolContext := some "client_tenant"
      schema := some "schema_b"
      poolMetadata := some { client_id := some "cB", user_role := some "user" } } }

/-- Witness for C3 at a concrete carried-over session. -/
theorem c3_witness :
    (SchemaDetection.detectSchema jwtLib0 envAB 0 reqCarriedCtx).session
      = reqCarriedCtx.session :=
  c3_session_context_persists jwtLib0 envAB 0 reqCarriedCtx rfl (by decide)

/-- True when the request carries a returnUrl matching some registered
client (the scan of detectSchemaFromReturnUrl finds a row). -/
def hasReturnUrlMatch (env : Env) (req : Req) : Bool :=
  match req.returnUrl with
  | none => false
  | some u => (SchemaDetection.matchingClient env u).isSome

/-- C4: with no Authorization header, no matching returnUrl, and no session
user or context, the combined resolver always terminates with the default
pool context on the configured default partition and the tenant-user role
(the chain is total: every step catches its own errors and falls through). -/
theorem c4_fallback_totality (L : JwtLib) (env : Env) (now : Nat) (req : Req)
    (hauth : req.authorization = none)
    (hurl : hasReturnUrlMatch env req = false)
    (huid : req.session.userId = none)
    (hctx : req.session.poolContext = none) :
    (SchemaDetection.detectSchema L env now req).session.poolContext = some "default" ∧
    (SchemaDetection.detectSchema L env now req).session.schema
      = some (defaultSchemaName env) ∧
    SchemaDetection.getUserRole (SchemaDetection.detectSchema L env now req)
      = "user" := by
  have h2 : SchemaDetection.detectSchemaFromReturnUrl env req = req := by
    unfold SchemaDetection.detectSchemaFromReturnUrl
    unfold hasReturnUrlMatch at hurl
    cases hu : req.returnUrl with
    | none => simp
    | some u =>
      cases hm : SchemaDetection.matchingClient env u with
      | none => simp [hm]
      | some c => rw [hu] at hurl; simp [hm] at hurl
  simp [SchemaDetection.detectSchema, SchemaDetection.detectSchemaFromApiToken,
    SchemaDetection.detectUserRole, SchemaDetection.setDefaultSchema,
    SchemaDetection.setPoolContext, SchemaDetection.getUserRole,
    hauth, hctx, huid, h2, jsTruthyOS, jsOrS]

/-- Witness for C4 at a concrete empty request. -/
theorem c4_witness :
    (SchemaDetection.detectSchema jwtLib0 envAB 0 {}).session.poolContext
      = some "default" ∧
    (SchemaDetection.detectSchema jwtLib0 envAB 0 {}).session.schema
      = some "client_template" ∧
    SchemaDetection.getUserRole (SchemaDetection.detectSchema jwtLib0 envAB 0 {})
      = "user" := by
  have h := c4_fallback_totality jwtLib0 envAB 0 {} rfl (by decide) rfl rfl
  exact ⟨h.1, h.2.1, h.2.2⟩

/-- C7 counterexample: with control-plane provisioning failing, the first
getPool call fails but the pool is already cached, and the second call
returns the cached handle successfully without running provisioning again
— refuting the not-cached-on-failure property for getPool. -/
theorem c7_counterexample :
    ((Pools.getPool true {}).1 = .error ()) ∧
    ((Pools.getPool true {}).2.authPool = some 0) ∧
    ((Pools.getPool true (Pools.getPool true {}).2).1 = .ok 0) ∧
    ((Pools.getPool true (Pools.getPool true {}).2).2.authProvisionRuns = 1) := by
  decide

/-- C7 amended: for tenant partitions (getPoolForSchema) a provisioning
failure leaves the cache unchanged and a retry runs provisioning again; for
the control plane (getPool) the handle is assigned to the cache before
provisioning, so after a failure the handle stays cached and a retry
returns it without provisioning. -/
theorem c7_provisioning_cache (f : String → Bool) (name : String)
    (st : Pools.PoolState) (hf : f name = true)
    (hnc : st.schemas.lookup name = none) :
    ((Pools.getPoolForSchema f st name).1 = .error () ∧
     (Pools.getPoolForSchema f st name).2.schemas = st.schemas ∧
     (Pools.getPoolForSchema f (Pools.getPoolForSchema f st name).2 name).1
        = .error () ∧
     (Pools.getPoolForSchema f (Pools.getPoolForSchema f st name).2 name).2.schemaProvisionRuns
        = st.schemaProvisionRuns ++ [name] ++ [name]) ∧
    (∀ st2 : Pools.PoolState, st2.authPool = none →
      (Pools.getPool true st2).1 = .error () ∧
      (Pools.getPool true st2).2.authPool = some st2.nextId ∧
      Pools.getPool true (Pools.getPool true st2).2
        = (.ok st2.nextId, (Pools.getPool true st2).2)) := by
  constructor
  · unfold Pools.getPoolForSchema
    rw [hnc]
    simp [hf, hnc]
  · intro st2 h0
    unfold Pools.getPool
    rw [h0]
    simp

/-- Witness for C7 at a concrete failing provisioner and empty cache. -/
theorem c7_witness :
    (Pools.getPoolForSchema (fun _ => true) {} "bad name").1 = .error () ∧
    (Pools.getPoolForSchema (fun _ => true) {} "bad name").2.schemas = [] ∧
    (Pools.getPool true {}).2.authPool = some 0 := by
  have h := c7_provisioning_cache (fun _ => true) "bad name" {} rfl rfl
  exact ⟨h.1.1, h.1.2.1, (h.2 {} rfl).2.1⟩

/-- C9 counterexample: a registration whose app name is well formed and
whose allowed_return_urls is the empty array passes validation and
succeeds — it is not rejected with ValidationError. -/
theorem c9_counterexample :
    isOkE (ClientServerService.registerClientServer {}
      { app_name := some "Acme", allowed_return_urls := .jsArr [] }
      "u1-a" "sec1" "u3-b" "sec2" 5 bhash0) = true := by decide

/-- C9 amended: registration fails with ValidationError exactly when the
app name is missing or empty, or allowed_return_urls is missing, falsy, or
not an array; an empty array is accepted. -/
theorem c9_validation_iff (env : Env) (body : ClientServerService.RegisterBody)
    (u1 u2 u3 u4 : String) (now : Nat) (bhash : String → String) :
    (∃ m, ClientServerService.registerClientServer env body u1 u2 u3 u4 now bhash
        = .error (.validation m)) ↔
      (jsTruthyOS body.app_name = false ∨ jsTruthy body.allowed_return_urls = false ∨
        jsIsArray body.allowed_return_urls = false) := by
  unfold ClientServerService.registerClientServer
  split_ifs with hg
  · constructor
    · intro _
      rcases hg with h | h | h <;> simp_all
    · intro _
      exact ⟨"app_name and allowed_return_urls (array) are required", rfl⟩
  · push_neg at hg
    constructor
    · intro hEx
      obtain ⟨m, hm⟩ := hEx
      exfalso
      simp only [AdminRepository.createClientServer] at hm
      split_ifs at hm
      simp_all
    · intro h
      rcases h with h | h | h <;> simp_all

/-- Witness for C9 at a concrete invalid body. -/
theorem c9_witness :
    ∃ m, ClientServerService.registerClientServer {}
      { app_name := some "Acme", allowed_return_urls := .jsStr "https://a.example/" }
      "u1-a" "sec1" "u3-b" "sec2" 5 bhash0 = .error (.validation m) :=
  (c9_validation_iff {} _ "u1-a" "sec1" "u3-b" "sec2" 5 bhash0).mpr
    (.inr (.inr (by decide)))

/-- The user row stored by the C2 registration. -/
def storedAlice : AuthService.User :=
  { id := "uid-1", name := "alice", role := "user", email := "a@x.io",
    password_hash := "pw123" }

/-- C2: register stores the raw request password unhashed in the
password_hash column, and login succeeds exactly by plaintext string
equality with that stored value (logging in with any other string, the
value a hash function would produce included, fails), contradicting the
one-way-hash verification the claim states.  The source comments the two
sites with: in a real app, hash the password / using hash comparison in a
real implementation. -/
theorem c2_plaintext_password_login :
    (AuthService.register []
        { name := some "alice", email := some "a@x.io", password := some "pw123" }
        "uid-1" = .ok ("uid-1", [storedAlice])) ∧
    storedAlice.password_hash = "pw123" ∧
    isOkE (AuthService.login [storedAlice] [] {}
        { email := some "a@x.io", password := some "pw123" } "sid-1") = true ∧
    isAuthErr (AuthService.login [storedAlice] [] {}
        { email := some "a@x.io", password := some (bhash0 "pw123") } "sid-1")
      = true := by decide

/-- The C1 request: a cryptographically valid bearer token bound to
schema_a together with a returnUrl served by the client of schema_b. -/
def reqTokenAndUrl : Req :=
  { authorization := some "Bearer tokA"
    returnUrl := some "https://b.example/cb" }

/-- C1: the bearer token verifies cryptographically as an api_token bound
to schema_a, yet verifyApiToken raises TypeError (clientServerService
calls repo.getClientServer, which adminRepository.js does not export), the
token step falls through, and the combined resolver resolves the request
to schema_b with the client_tenant context via the returnUrl — the exact
outcome the priority claim excludes. -/
theorem c1_token_priority_broken :
    (jwtVerify jwtLib0 (jwtSecretKey envAB) 10 "tokA"
      = .ok { client_id := "cA", schema := "schema_a", type := "api_token" }) ∧
    (ClientServerService.verifyApiToken jwtLib0 envAB 10 "tokA"
      = .error (.typeError "repo.getClientServer is not a function")) ∧
    ((SchemaDetection.detectSchema jwtLib0 envAB 10 reqTokenAndUrl).session.poolContext
      = some "client_tenant") ∧
    ((SchemaDetection.detectSchema jwtLib0 envAB 10 reqTokenAndUrl).session.schema
      = some "schema_b") := by decide

/-- C8: verifyApiToken rejects every token jwt.verify fails (bad signature,
expired, malformed) with an AuthError, and every decodable unexpired token
whose type is not api_token with an AuthError; but authenticateClientServer,
the issuing side, always raises TypeError at the registry lookup (the
missing repo.getClientServer export) before the 24h signing statement can
run, so no token is ever issued. -/
theorem c8_verify_rejects_issue_crashes :
    (∀ (L : JwtLib) (env : Env) (now : Nat) (s : String),
      (∃ e, jwtVerify L (jwtSecretKey env) now s = .error e) →
      isAuthErr (ClientServerService.verifyApiToken L env now s) = true) ∧
    (∀ (L : JwtLib) (env : Env) (now : Nat) (s : String) (d : JwtPayload),
      jwtVerify L (jwtSecretKey env) now s = .ok d → d.type ≠ "api_token" →
      isAuthErr (ClientServerService.verifyApiToken L env now s) = true) ∧
    (∀ (L : JwtLib) (env : Env) (now : Nat)
        (body : ClientServerService.AuthBody) (bcompare : String → String → Bool),
      jsTruthyOS body.client_id = true → jsTruthyOS body.client_secret = true →
      ClientServerService.authenticateClientServer L env now body bcompare
        = .error (.typeError "repo.getClientServer is not a function")) := by
  refine ⟨?_, ?_, ?_⟩
  · intro L env now s hEx
    obtain ⟨e, he⟩ := hEx
    unfold ClientServerService.verifyApiToken
    rw [he]
    split_ifs <;> rfl
  · intro L env now s d hd ht
    have ht2 : (d.type != "api_token") = true := by simpa [bne_iff_ne] using ht
    unfold ClientServerService.verifyApiToken
    rw [hd]
    split_ifs <;> simp [isAuthErr, ht2]
  · intro L env now body bcompare h1 h2
    unfold ClientServerService.authenticateClientServer
    simp [h1, h2, AdminRepository.getClientServer]

/-- True when some string field of a stored registry row equals s. -/
def recordMentions (c : ClientServer) (s : String) : Bool :=
  c.client_id == s || c.client_secret_hash == s || c.app_name == s ||
  c.assigned_schema_name == s || c.allowed_return_urls.contains s ||
  c.user_id == some s || c.client_mode == s

/-- True when some string field of an owner-scoped result row equals s. -/
def rowMentions (r : ClientServerService.ClientRow) (s : String) : Bool :=
  r.client_id == s || r.app_name == s || r.assigned_schema_name == s ||
  r.allowed_return_urls.contains s || r.client_mode == s

/-- C6 counterexample: at a concrete registration, the stored record does
not contain the hash of the returned secret: the repo layer
(adminRepository.createClientServer) ignores the service-generated
credentials and regenerates its own, so the single stored row carries the
hash of the regenerated secret sec2 while register returns plaintext sec1
and a client_id that is stored nowhere. -/
theorem c6_counterexample :
    ClientServerService.registerClientServer {}
        { app_name := some "Acme", allowed_return_urls := .jsArr ["https://acme.example/"] }
        "u1-a" "sec1" "u3-b" "sec2" 7 bhash0
      = .ok ({ client_id := "client_u1a", client_secret := "sec1",
               app_name := "Acme", assigned_schema_name := "client_acme_7",
               allowed_return_urls := ["https://acme.example/"] },
             { seedSchema := none, jwtSecret := none,
               clientServers := [{ client_id := "client_u3b",
                                   client_secret_hash := "bc$sec2",
                                   app_name := "Acme",
                                   assigned_schema_name := "client_acme_7",
                                   allowed_return_urls := ["https://acme.example/"],
                                   user_id := none,
                                   client_mode := "api-auth-server" }] })
    ∧ bhash0 "sec1" ≠ "bc$sec2" ∧ "client_u1a" ≠ "client_u3b" := by decide

/-- A stored row that never mentions a string yields an owner-scoped result
row that never mentions it either (the result columns are a subset of the
stored columns, the hash column excluded). -/
lemma rowMentions_toClientRow (c : ClientServer) (s : String)
    (h : recordMentions c s = false) :
    rowMentions (ClientServerService.toClientRow c) s = false := by
  simp only [recordMentions, Bool.or_eq_false_iff] at h
  have hmem : s ∉ c.allowed_return_urls := by simpa using h.1.1.2
  simp [rowMentions, ClientServerService.toClientRow, h.1.1.1.1.1.1,
    h.1.1.1.1.2, h.1.1.1.2, h.1.1.2, h.2, hmem]

/-- C6 amended: the plaintext secret round-trips nowhere: register returns
it once, the registry gains one row whose credential field is a bcrypt
hash (of the repo-regenerated secret, not of the returned one) and none of
whose fields equals the plaintext, the owner-scoped list rows carry no
hash column and never mention the plaintext, and getClientServerInfo (as
wired, its registry lookup raises TypeError) never returns a result at
all. -/
theorem c6_secret_never_round_trips (env : Env)
    (body : ClientServerService.RegisterBody) (u1 u2 u3 u4 : String)
    (now : Nat) (bhash : String → String)
    (d : ClientServerService.RegisterData) (env2 : Env)
    (hok : ClientServerService.registerClientServer env body u1 u2 u3 u4 now bhash
      = .ok (d, env2))
    (h1 : u2 ≠ "client_" ++ stripDashes u3)
    (h2 : bhash u4 ≠ u2)
    (h3 : u2 ≠ body.app_name.getD "")
    (h4 : u2 ≠ "client_" ++
      ClientServerService.sanitizeAppName (body.app_name.getD "") ++ "_" ++ toString now)
    (h5 : (jsArrGet body.allowed_return_urls).contains u2 = false)
    (h6 : u2 ≠ "api-auth-server")
    (h7 : ∀ c ∈ env.clientServers, recordMentions c u2 = false) :
    d.client_secret = u2 ∧
    (∃ st : ClientServer, env2.clientServers = env.clientServers ++ [st] ∧
      st.client_secret_hash = bhash u4 ∧ recordMentions st u2 = false) ∧
    (∀ c ∈ env2.clientServers, recordMentions c u2 = false) ∧
    (∀ uid rows, ClientServerService.getUserClientServers env2 uid = .ok rows →
      ∀ r ∈ rows, rowMentions r u2 = false) ∧
    (∀ cid, isOkE (ClientServerService.getClientServerInfo env2 cid) = false) := by
  simp only [ClientServerService.registerClientServer,
    AdminRepository.createClientServer] at hok
  split_ifs at hok with hg hv
  · injection hok with hpair
    obtain ⟨hd, he⟩ := Prod.mk.inj hpair
    have hst : recordMentions
        { client_id := "client_" ++ stripDashes u3
          client_secret_hash := bhash u4
          app_name := body.app_name.getD ""
          assigned_schema_name := "client_" ++
            ClientServerService.sanitizeAppName (body.app_name.getD "") ++ "_" ++ toString now
          allowed_return_urls := jsArrGet body.allowed_return_urls
          user_id := none
          client_mode := "api-auth-server" } u2 = false := by
      have hmem2 : u2 ∉ jsArrGet body.allowed_return_urls := by simpa using h5
      simp [recordMentions, Ne.symm h1, h2, Ne.symm h3, Ne.symm h4,
        Ne.symm h6, hmem2]
    refine ⟨?_, ?_, ?_, ?_, ?_⟩
    · rw [← hd]
    · exact ⟨_, by rw [← he], rfl, hst⟩
    · intro c hc
      rw [← he] at hc
      rcases List.mem_append.mp hc with hcl | hcr
      · exact h7 c hcl
      · rw [List.mem_singleton.mp hcr]
        exact hst
    · intro uid rows hrows r hr
      unfold ClientServerService.getUserClientServers at hrows
      split_ifs at hrows with hu
      · have hrows2 := Except.ok.inj hrows
        rw [← hrows2] at hr
        obtain ⟨c, hcmem, hcr⟩ := List.mem_map.mp hr
        have hcm : c ∈ env2.clientServers := (List.mem_filter.mp hcmem).1
        have hcfalse : recordMentions c u2 = false := by
          rw [← he] at hcm
          rcases List.mem_append.mp hcm with hcl | hcr2
          · exact h7 c hcl
          · rw [List.mem_singleton.mp hcr2]
            exact hst
        rw [← hcr]
        exact rowMentions_toClientRow c u2 hcfalse
    · intro cid
      unfold ClientServerService.getClientServerInfo
      split_ifs <;> rfl

/-- Fixture body of the C6 witness registration. -/
def c6WitBody : ClientServerService.RegisterBody :=
  { app_name := some "Wapp", allowed_return_urls := .jsArr ["https://w.example/"] }

/-- Registry state after the C6 witness registration. -/
def c6WitEnv2 : Env :=
  { clientServers := [{ client_id := "client_w3b"
                        client_secret_hash := "bc$wsec2"
                        app_name := "Wapp"
                        assigned_schema_name := "client_wapp_9"
                        allowed_return_urls := ["https://w.example/"]
                        user_id := none
                        client_mode := "api-auth-server" }] }

/-- Service response of the C6 witness registration. -/
def c6WitData : ClientServerService.RegisterData :=
  { client_id := "client_w1a", client_secret := "wsec", app_name := "Wapp",
    assigned_schema_name := "client_wapp_9",
    allowed_return_urls := ["https://w.example/"] }

/-- Witness for C6 at a concrete registration. -/
theorem c6_witness :
    c6WitData.client_secret = "wsec" ∧
    (∀ c ∈ c6WitEnv2.clientServers, recordMentions c "wsec" = false) ∧
    (∀ cid, isOkE (ClientServerService.getClientServerInfo c6WitEnv2 cid) = false) := by
  have h := c6_secret_never_round_trips {} c6WitBody "w1-a" "wsec" "w3-b" "wsec2" 9
    bhash0 c6WitData c6WitEnv2 (by decide) (by decide) (by decide) (by decide)
    (by decide) (by decide) (by decide) (by intro c hc; cases hc)
  exact ⟨h.1, h.2.2.1, h.2.2.2.2⟩

/-- Witness for C8 at concrete inputs: an expired token is rejected with an
AuthError and a concrete valid issuing request crashes with TypeError. -/
theorem c8_witness :
    isAuthErr (ClientServerService.verifyApiToken jwtLib0 envAB 200 "tokA") = true ∧
    ClientServerService.authenticateClientServer jwtLib0 envAB 0
        { client_id := some "cA", client_secret := some "s1" } (fun _ _ => true)
      = .error (.typeError "repo.getClientServer is not a function") := by
  refine ⟨?_, ?_⟩
  · exact c8_verify_rejects_issue_crashes.1 jwtLib0 envAB 200 "tokA"
      ⟨.tokenExpiredErr, by decide⟩
  · exact c8_verify_rejects_issue_crashes.2.2 jwtLib0 envAB 0
      { client_id := some "cA", client_secret := some "s1" } (fun _ _ => true)
      (by decide) (by decide)

end AuthSystem
